import Mathlib

/-!
# Tendis hierarchical lock handles (`src/tendisplus/lock/lock.cpp`)

A shallow embedding of the lock handles of `lock.cpp`: the store-set lock, the
store lock, the chunk lock and the key lock, their constructors, destructors,
accessors and the two factories `AquireStoreLock` / `AquireKeyLock`.

The collaborators of `lock.cpp` are external (`mgl::MGLock`, `mgl::MGLockMgr`,
the session context).  Every call the code makes on them is recorded, in
program order, in a trace of `Event`s; the values they return are read from an
environment `Env` that may depend on the whole trace so far.

`uint32_t` / `uint64_t` values are `Nat`s: the code performs no arithmetic on
them, it only prints them in decimal (`std::to_string`) and passes them on.
-/

namespace Tendis

/-- Modelled from the spec: the enumeration `mgl::LockMode`, declared outside the
sources: the four modes `IS`, `S`, `IX`, `X` and the sentinel `NONE`, under the
names `lock.cpp` uses. -/
inductive LockMode where
  | LOCK_NONE
  | LOCK_IS
  | LOCK_IX
  | LOCK_S
  | LOCK_X
  deriving DecidableEq, Repr

/-- Modelled from the spec: the enumeration `mgl::LockRes`, declared outside the
sources: the outcomes `OK`, `WAIT` and `TIMEOUT`, under the names `lock.cpp`
uses. -/
inductive LockRes where
  | LOCKRES_OK
  | LOCKRES_WAIT
  | LOCKRES_TIMEOUT
  deriving DecidableEq, Repr

/-- Modelled from the spec: the error codes, declared outside the sources; the
two that `lock.cpp` returns. -/
inductive ErrorCodes where
  | ERR_LOCK_TIMEOUT
  | ERR_UNKNOWN
  deriving DecidableEq, Repr

/-- A session pointer that is not null is identified by a number. -/
abbrev Session := Nat

/-- One call on an external collaborator, or a failed invariant check.
A handle passed as `this` to the session is identified by the resource name
its primitive lock was requested on. -/
inductive Event where
  /-- The call `MGLock::lock(target, mode, timeoutMs)`. -/
  | lock (target : String) (mode : LockMode) (timeoutMs : Nat)
  /-- The call `MGLock::unlock()` on the primitive lock requested on `target`. -/
  | unlock (target : String)
  /-- The call `sess->getCtx()->setWaitLock(storeId, chunkId, key, mode)`. -/
  | setWaitLock (sess : Session) (storeId chunkId : Nat) (key : String) (mode : LockMode)
  /-- The call `sess->getCtx()->addLock(this)`. -/
  | addLock (sess : Session) (handle : String)
  /-- The call `sess->getCtx()->removeLock(this)`. -/
  | removeLock (sess : Session) (handle : String)
  /-- The call `sess->getCtx()->setKeylock(key, mode)`. -/
  | setKeylock (sess : Session) (key : String) (mode : LockMode)
  /-- The call `sess->getCtx()->unsetKeylock(key)`. -/
  | unsetKeylock (sess : Session) (key : String)
  /-- An `INVARIANT` / `INVARIANT_D` whose condition was false. -/
  | invariantFailed
  deriving DecidableEq, Repr

/-- What `lock.cpp` reads from outside itself.
* `debug`: whether `INVARIANT_D` is compiled in (a debug build);
* `lock`: the outcome `MGLock::lock` returns for a request, given the trace
  before the request;
* `isLockedByMe`: the answer of the session's re-entrancy check, given the
  trace before the question;
* `storeLockTimeoutMs`: the default value `lock.h` gives the last parameter of
  the `StoreLock` constructor (`ChunkLock` constructs its parent without
  passing one). -/
structure Env where
  debug : Bool
  lock : List Event → String → LockMode → Nat → LockRes
  isLockedByMe : List Event → Session → String → LockMode → Bool
  storeLockTimeoutMs : Nat

/-- How a run ends: it returns a value, or the process is aborted by a failed
invariant.  Both carry the trace at that point. -/
inductive Result (α : Type) where
  | done (a : α) (t : List Event)
  | abort (t : List Event)
  deriving DecidableEq, Repr

/-- The trace at the end of a run. -/
def Result.trace {α : Type} : Result α → List Event
  | .done _ t => t
  | .abort t => t

/-- A computation over the trace that may abort. -/
def M (α : Type) : Type := List Event → Result α

/-- Return without a call. -/
def M.pure {α : Type} (a : α) : M α := fun t => .done a t

/-- Sequencing: an abort ends the run. -/
def M.bind {α β : Type} (m : M α) (f : α → M β) : M β := fun t =>
  match m t with
  | .done a t1 => f a t1
  | .abort t1 => .abort t1

instance : Monad M where
  pure := M.pure
  bind := M.bind

/-- Record one call. -/
def emit (e : Event) : M Unit := fun t => .done () (t ++ [e])

/-- Modelled from the spec: the macro `INVARIANT` of `utils/invariant.h`, which is
not among the sources.  A false condition is an unrecoverable invariant
violation: the process aborts, in every build. -/
def INVARIANT (e : Bool) : M Unit := fun t =>
  if e then .done () t else .abort (t ++ [Event.invariantFailed])

/-- Modelled from the spec: the macro `INVARIANT_D` of `utils/invariant.h`, which
is not among the sources.  A false condition is an invariant violation; the
process aborts in debug builds, and in other builds the check is compiled out
and the code after it runs. -/
def INVARIANT_D (env : Env) (e : Bool) : M Unit := fun t =>
  if e then .done () t
  else if env.debug then .abort (t ++ [Event.invariantFailed])
  else .done () (t ++ [Event.invariantFailed])

/-- The body of `if (_sess) { ... }`. -/
def withSess (sess : Option Session) (body : Session → M Unit) : M Unit :=
  match sess with
  | some s => body s
  | none => M.pure ()

/-- Modelled from the spec: the primitive lock object `mgl::MGLock`, declared
outside the sources, as far as `lock.cpp` uses it: the resource and mode of the
request made on it. -/
structure MGLock where
  target : String
  mode : LockMode
  deriving DecidableEq, Repr

/-- The call `_mgl->lock(target, mode, timeoutMs)`: the request is recorded and the
primitive's outcome returned. -/
def MGLock.lock (env : Env) (target : String) (mode : LockMode) (timeoutMs : Nat) :
    M LockRes := fun t =>
  .done (env.lock t target mode timeoutMs) (t ++ [Event.lock target mode timeoutMs])

/-- The static `ILock::getParentMode` (lock.cpp:52-67). -/
def getParentMode (env : Env) (mode : LockMode) : M LockMode :=
  match mode with
  | .LOCK_IS | .LOCK_S => M.pure .LOCK_IS
  | .LOCK_IX | .LOCK_X => M.pure .LOCK_IX
  | _ => do
    INVARIANT_D env false
    M.pure .LOCK_NONE

/-- The class `StoresLock`: the `ILock` fields (`_parent` is `nullptr`). -/
structure StoresLock where
  _lockResult : LockRes
  _mgl : MGLock
  _sess : Option Session
  deriving DecidableEq, Repr

/-- The class `StoreLock`: the `ILock` fields (`_parent` is `NULL`) and `_storeId`. -/
structure StoreLock where
  _lockResult : LockRes
  _mgl : MGLock
  _sess : Option Session
  _storeId : Nat
  deriving DecidableEq, Repr

/-- The class `ChunkLock`: the `ILock` fields and `_chunkId`.  Its `_parent` is the
`StoreLock` its constructor allocates, never null. -/
structure ChunkLock where
  _lockResult : LockRes
  _parent : StoreLock
  _mgl : MGLock
  _sess : Option Session
  _chunkId : Nat
  deriving DecidableEq, Repr

/-- The class `KeyLock`: the `ILock` fields and `_key`.  Its `_parent` is the
`ChunkLock` its constructor allocates, never null. -/
structure KeyLock where
  _lockResult : LockRes
  _parent : ChunkLock
  _mgl : MGLock
  _sess : Option Session
  _key : String
  deriving DecidableEq, Repr

/-- Modelled from the spec: the result type `Expected<T>`, declared outside the
sources: a value or a typed error (code and message). -/
abbrev Expected (α : Type) := Except (ErrorCodes × String) α

/-- The constant `StoresLock::_target` (lock.cpp:8). -/
def StoresLock._target : String := "stores"

/-- The constructor `StoresLock::StoresLock` (lock.cpp:70-74).  The base
constructor sets `_lockResult` to `LOCKRES_WAIT`; the body overwrites it. -/
def StoresLock.ctor (env : Env) (mode : LockMode) (sess : Option Session)
    (lockTimeoutMs : Nat) : M StoresLock := do
  let lockResult ← MGLock.lock env StoresLock._target mode lockTimeoutMs
  M.pure ⟨lockResult, ⟨StoresLock._target, mode⟩, sess⟩

/-- The constructor `StoreLock::StoreLock` (lock.cpp:89-107). -/
def StoreLock.ctor (env : Env) (storeId : Nat) (mode : LockMode) (sess : Option Session)
    (lockTimeoutMs : Nat) : M StoreLock := do
  let target := "store_" ++ toString storeId
  withSess sess fun s => emit (.setWaitLock s storeId 0 "" mode)
  let lockResult ← MGLock.lock env target mode lockTimeoutMs
  withSess sess fun s => do
    emit (.setWaitLock s 0 0 "" .LOCK_NONE)
    emit (.addLock s target)
  M.pure ⟨lockResult, ⟨target, mode⟩, sess, storeId⟩

/-- The constructor `ChunkLock::ChunkLock` (lock.cpp:113-130).  The parameters
come in the order of the definition: `chunkId` first, `storeId` second.  The
outcome of the request goes to a local variable, so `_lockResult` keeps the
`LOCKRES_WAIT` the base constructor gave it. -/
def ChunkLock.ctor (env : Env) (chunkId storeId : Nat) (mode : LockMode)
    (sess : Option Session) : M ChunkLock := do
  let parentMode ← getParentMode env mode
  let parent ← StoreLock.ctor env storeId parentMode none env.storeLockTimeoutMs
  let target := "chunk_" ++ toString chunkId
  let timeoutMs := 4294967295
  withSess sess fun s => emit (.setWaitLock s storeId chunkId "" mode)
  let lockResult ← MGLock.lock env target mode timeoutMs
  INVARIANT (lockResult == .LOCKRES_OK)
  withSess sess fun s => do
    emit (.setWaitLock s 0 0 "" .LOCK_NONE)
    emit (.addLock s target)
  M.pure ⟨.LOCKRES_WAIT, parent, ⟨target, mode⟩, sess, chunkId⟩

/-- The constructor `KeyLock::KeyLock` (lock.cpp:158-173).  It passes
`(storeId, chunkId, ...)` to the `ChunkLock` constructor, whose parameters are
`(chunkId, storeId, ...)`. -/
def KeyLock.ctor (env : Env) (storeId chunkId : Nat) (key : String) (mode : LockMode)
    (sess : Option Session) (lockTimeoutMs : Nat) : M KeyLock := do
  let parentMode ← getParentMode env mode
  let parent ← ChunkLock.ctor env storeId chunkId parentMode none
  let target := "key_" ++ key
  withSess sess fun s => emit (.setWaitLock s storeId chunkId key mode)
  let lockResult ← MGLock.lock env target mode lockTimeoutMs
  withSess sess fun s => do
    emit (.setWaitLock s 0 0 "" .LOCK_NONE)
    emit (.addLock s target)
    emit (.setKeylock s key mode)
  M.pure ⟨lockResult, parent, ⟨target, mode⟩, sess, key⟩

/-- The accessor `ILock::getLockResult` (lock.cpp:36-38) on a store-set lock. -/
def StoresLock.getLockResult (l : StoresLock) : LockRes := l._lockResult

/-- The accessor `ILock::getLockResult` (lock.cpp:36-38) on a store lock. -/
def StoreLock.getLockResult (l : StoreLock) : LockRes := l._lockResult

/-- The accessor `ILock::getLockResult` (lock.cpp:36-38) on a chunk lock. -/
def ChunkLock.getLockResult (l : ChunkLock) : LockRes := l._lockResult

/-- The accessor `ILock::getLockResult` (lock.cpp:36-38) on a key lock. -/
def KeyLock.getLockResult (l : KeyLock) : LockRes := l._lockResult

/-- The accessor `StoreLock::getStoreId` (lock.cpp:109-111). -/
def StoreLock.getStoreId (l : StoreLock) : Nat := l._storeId

/-- The accessor `ChunkLock::getStoreId` (lock.cpp:132-134). -/
def ChunkLock.getStoreId (l : ChunkLock) : Nat := l._parent.getStoreId

/-- The accessor `ChunkLock::getChunkId` (lock.cpp:136-138). -/
def ChunkLock.getChunkId (l : ChunkLock) : Nat := l._chunkId

/-- The accessor `KeyLock::getStoreId` (lock.cpp:181-183). -/
def KeyLock.getStoreId (l : KeyLock) : Nat := l._parent.getStoreId

/-- The accessor `KeyLock::getChunkId` (lock.cpp:185-187). -/
def KeyLock.getChunkId (l : KeyLock) : Nat := l._parent.getChunkId

/-- The accessor `KeyLock::getKey` (lock.cpp:189-191). -/
def KeyLock.getKey (l : KeyLock) : String := l._key

/-- The destructor of a `StoreLock`: `ILock::~ILock` (lock.cpp:17-27) with no
parent. -/
def StoreLock.dtor (l : StoreLock) : M Unit := do
  emit (.unlock l._mgl.target)
  withSess l._sess fun s => emit (.removeLock s l._mgl.target)

/-- The destructor of a `ChunkLock`: `ILock::~ILock` (lock.cpp:17-27); resetting
`_parent` destroys the store lock. -/
def ChunkLock.dtor (l : ChunkLock) : M Unit := do
  emit (.unlock l._mgl.target)
  l._parent.dtor
  withSess l._sess fun s => emit (.removeLock s l._mgl.target)

/-- The destructor of a `KeyLock`: `KeyLock::~KeyLock` (lock.cpp:175-179), then
`ILock::~ILock` (lock.cpp:17-27); resetting `_parent` destroys the chunk lock. -/
def KeyLock.dtor (l : KeyLock) : M Unit := do
  withSess l._sess fun s => emit (.unsetKeylock s l._key)
  emit (.unlock l._mgl.target)
  l._parent.dtor
  withSess l._sess fun s => emit (.removeLock s l._mgl.target)

/-- The factory `StoreLock::AquireStoreLock` (lock.cpp:76-87).  A handle that is
not returned is destroyed when the function returns. -/
def AquireStoreLock (env : Env) (storeId : Nat) (mode : LockMode) (sess : Option Session)
    (lockTimeoutMs : Nat) : M (Expected (Option StoreLock)) := do
  let lock ← StoreLock.ctor env storeId mode sess lockTimeoutMs
  if lock.getLockResult = LockRes.LOCKRES_OK then
    M.pure (Except.ok (some lock))
  else if lock.getLockResult = LockRes.LOCKRES_TIMEOUT then
    lock.dtor
    M.pure (Except.error (ErrorCodes.ERR_LOCK_TIMEOUT, "Lock wait timeout"))
  else
    INVARIANT_D env false
    lock.dtor
    M.pure (Except.error (ErrorCodes.ERR_UNKNOWN, "unknown error"))

/-- The factory `KeyLock::AquireKeyLock` (lock.cpp:140-156).  The session is
dereferenced without a check, so it is not null.  The identifier `chunkid` of
line 146 is read as the parameter `chunkId`. -/
def AquireKeyLock (env : Env) (storeId chunkId : Nat) (key : String) (mode : LockMode)
    (sess : Session) (lockTimeoutMs : Nat) : M (Expected (Option KeyLock)) := fun t =>
  if env.isLockedByMe t sess key mode then
    .done (Except.ok none) t
  else
    (do
      let lock ← KeyLock.ctor env storeId chunkId key mode (some sess) lockTimeoutMs
      if lock.getLockResult = LockRes.LOCKRES_OK then
        M.pure (Except.ok (some lock))
      else if lock.getLockResult = LockRes.LOCKRES_TIMEOUT then
        lock.dtor
        M.pure (Except.error (ErrorCodes.ERR_LOCK_TIMEOUT, "Lock wait timeout"))
      else
        INVARIANT_D env false
        lock.dtor
        M.pure (Except.error (ErrorCodes.ERR_UNKNOWN, "unknown error"))) t

/-- The primitive lock requests of a trace, in order: resource and mode. -/
def lockReqs : List Event → List (String × LockMode)
  | [] => []
  | .lock target mode _ :: es => (target, mode) :: lockReqs es
  | _ :: es => lockReqs es

/-- The primitive unlocks of a trace, in order. -/
def unlocks : List Event → List String
  | [] => []
  | .unlock target :: es => target :: unlocks es
  | _ :: es => unlocks es

/-- The `setWaitLock` calls of a trace, in order. -/
def waitLocks : List Event → List (Session × Nat × Nat × String × LockMode)
  | [] => []
  | .setWaitLock s storeId chunkId key mode :: es =>
    (s, storeId, chunkId, key, mode) :: waitLocks es
  | _ :: es => waitLocks es

/-- The `addLock` calls of a trace, in order. -/
def addLocks : List Event → List (Session × String)
  | [] => []
  | .addLock s h :: es => (s, h) :: addLocks es
  | _ :: es => addLocks es

/-- The `setKeylock` calls of a trace, in order. -/
def setKeylocks : List Event → List (Session × String × LockMode)
  | [] => []
  | .setKeylock s key mode :: es => (s, key, mode) :: setKeylocks es
  | _ :: es => setKeylocks es

/-- The events a run added to the trace `t0` it started from. -/
def Result.since {α : Type} (r : Result α) (t0 : List Event) : List Event :=
  r.trace.drop t0.length

/-- The mapping of outcomes a factory owes its caller.  For a constructed handle
`h` with outcome `res`, `t1` the trace after the construction and `r` the
factory's run: `r` returns a success exactly when `res` is `LOCKRES_OK`, and
then it is the handle `h` with nothing done after the construction; `r` returns
the error `ERR_LOCK_TIMEOUT` exactly when `res` is `LOCKRES_TIMEOUT`; for any
other `res` an invariant fails after the construction. -/
def FactoryMaps {α : Type} (res : LockRes) (h : α) (t1 : List Event)
    (r : Result (Expected (Option α))) : Prop :=
  ((∃ x t2, r = .done (Except.ok x) t2) ↔ res = .LOCKRES_OK) ∧
  (res = .LOCKRES_OK → r = .done (Except.ok (some h)) t1) ∧
  ((∃ msg t2, r = .done (Except.error (ErrorCodes.ERR_LOCK_TIMEOUT, msg)) t2) ↔
    res = .LOCKRES_TIMEOUT) ∧
  (res ≠ .LOCKRES_OK → res ≠ .LOCKRES_TIMEOUT → Event.invariantFailed ∈ r.since t1)

/-- A primitive that grants every request; the session holds no key. -/
def envGrant : Env := ⟨true, fun _ _ _ _ => .LOCKRES_OK, fun _ _ _ _ => false, 3600000⟩

/-- A primitive that times out on every request; the session holds no key. -/
def envTimeout : Env := ⟨true, fun _ _ _ _ => .LOCKRES_TIMEOUT, fun _ _ _ _ => false, 3600000⟩

/-- A primitive that grants the store and chunk requests and times out on the
resource `key_foo`; the session holds no key. -/
def envKeyTimeout : Env :=
  ⟨true, fun _ target _ _ => if target = "key_foo" then .LOCKRES_TIMEOUT else .LOCKRES_OK,
    fun _ _ _ _ => false, 3600000⟩

/-- A primitive that grants every request but the one on `chunk_2`, which times
out; the session holds no key. -/
def envChunkTimeout : Env :=
  ⟨true, fun _ target _ _ => if target = "chunk_2" then .LOCKRES_TIMEOUT else .LOCKRES_OK,
    fun _ _ _ _ => false, 3600000⟩

/-- A session whose re-entrancy check answers yes for every key. -/
def envHeld : Env := ⟨true, fun _ _ _ _ => .LOCKRES_OK, fun _ _ _ _ => true, 3600000⟩

/-! ## Unfolding lemmas -/

theorem M.bind_apply {α β : Type} (m : M α) (f : α → M β) (t : List Event) :
    (m >>= f) t = match m t with
      | .done a t1 => f a t1
      | .abort t1 => .abort t1 := rfl

theorem since_done {α : Type} (a : α) (t0 d : List Event) :
    (Result.done a (t0 ++ d)).since t0 = d := by
  simp [Result.since, Result.trace]

theorem since_abort {α : Type} (t0 d : List Event) :
    (Result.abort (t0 ++ d) : Result α).since t0 = d := by
  simp [Result.since, Result.trace]

theorem since_done_self {α : Type} (a : α) (t0 : List Event) :
    (Result.done a t0).since t0 = [] := by
  simp [Result.since, Result.trace]

theorem getParentMode_valid (env : Env) (mode : LockMode) (t : List Event)
    (hm : mode = .LOCK_IS ∨ mode = .LOCK_S ∨ mode = .LOCK_IX ∨ mode = .LOCK_X) :
    getParentMode env mode t =
      .done (if mode = .LOCK_IS ∨ mode = .LOCK_S then .LOCK_IS else .LOCK_IX) t := by
  rcases hm with rfl | rfl | rfl | rfl <;> rfl

theorem StoreLock_ctor_none (env : Env) (storeId : Nat) (mode : LockMode) (T : Nat)
    (t : List Event) :
    StoreLock.ctor env storeId mode none T t =
      .done ⟨env.lock t ("store_" ++ toString storeId) mode T,
        ⟨"store_" ++ toString storeId, mode⟩, none, storeId⟩
        (t ++ [.lock ("store_" ++ toString storeId) mode T]) := rfl

theorem StoreLock_ctor_some (env : Env) (storeId : Nat) (mode : LockMode) (s : Session)
    (T : Nat) (t : List Event) :
    StoreLock.ctor env storeId mode (some s) T t =
      .done ⟨env.lock (t ++ [.setWaitLock s storeId 0 "" mode])
          ("store_" ++ toString storeId) mode T,
        ⟨"store_" ++ toString storeId, mode⟩, some s, storeId⟩
        (t ++ [.setWaitLock s storeId 0 "" mode, .lock ("store_" ++ toString storeId) mode T,
          .setWaitLock s 0 0 "" .LOCK_NONE, .addLock s ("store_" ++ toString storeId)]) := by
  simp [StoreLock.ctor, M.bind_apply, withSess, emit, MGLock.lock, M.pure]

/-- The chunk lock constructor without a session, for a valid mode whose
intention mode is `pm`. -/
theorem ChunkLock_ctor_none (env : Env) (chunkId storeId : Nat) (mode pm : LockMode)
    (t : List Event) (hpm : getParentMode env mode t = .done pm t) :
    ChunkLock.ctor env chunkId storeId mode none t =
      if env.lock (t ++ [.lock ("store_" ++ toString storeId) pm env.storeLockTimeoutMs])
          ("chunk_" ++ toString chunkId) mode 4294967295 = .LOCKRES_OK then
        .done ⟨.LOCKRES_WAIT,
          ⟨env.lock t ("store_" ++ toString storeId) pm env.storeLockTimeoutMs,
            ⟨"store_" ++ toString storeId, pm⟩, none, storeId⟩,
          ⟨"chunk_" ++ toString chunkId, mode⟩, none, chunkId⟩
          (t ++ [.lock ("store_" ++ toString storeId) pm env.storeLockTimeoutMs,
            .lock ("chunk_" ++ toString chunkId) mode 4294967295])
      else
        .abort (t ++ [.lock ("store_" ++ toString storeId) pm env.storeLockTimeoutMs,
          .lock ("chunk_" ++ toString chunkId) mode 4294967295, .invariantFailed]) := by
  simp only [ChunkLock.ctor, M.bind_apply, hpm, StoreLock_ctor_none]
  by_cases h : env.lock (t ++ [.lock ("store_" ++ toString storeId) pm env.storeLockTimeoutMs])
      ("chunk_" ++ toString chunkId) mode 4294967295 = .LOCKRES_OK <;>
    simp [h, M.bind_apply, withSess, emit, MGLock.lock, M.pure, INVARIANT]

/-- The chunk lock constructor with a session, for a valid mode whose intention
mode is `pm`. -/
theorem ChunkLock_ctor_some (env : Env) (chunkId storeId : Nat) (mode pm : LockMode)
    (s : Session) (t : List Event) (hpm : getParentMode env mode t = .done pm t) :
    ChunkLock.ctor env chunkId storeId mode (some s) t =
      if env.lock (t ++ [.lock ("store_" ++ toString storeId) pm env.storeLockTimeoutMs,
            .setWaitLock s storeId chunkId "" mode])
          ("chunk_" ++ toString chunkId) mode 4294967295 = .LOCKRES_OK then
        .done ⟨.LOCKRES_WAIT,
          ⟨env.lock t ("store_" ++ toString storeId) pm env.storeLockTimeoutMs,
            ⟨"store_" ++ toString storeId, pm⟩, none, storeId⟩,
          ⟨"chunk_" ++ toString chunkId, mode⟩, some s, chunkId⟩
          (t ++ [.lock ("store_" ++ toString storeId) pm env.storeLockTimeoutMs,
            .setWaitLock s storeId chunkId "" mode,
            .lock ("chunk_" ++ toString chunkId) mode 4294967295,
            .setWaitLock s 0 0 "" .LOCK_NONE, .addLock s ("chunk_" ++ toString chunkId)])
      else
        .abort (t ++ [.lock ("store_" ++ toString storeId) pm env.storeLockTimeoutMs,
          .setWaitLock s storeId chunkId "" mode,
          .lock ("chunk_" ++ toString chunkId) mode 4294967295, .invariantFailed]) := by
  simp only [ChunkLock.ctor, M.bind_apply, hpm, StoreLock_ctor_none]
  by_cases h : env.lock (t ++ [.lock ("store_" ++ toString storeId) pm env.storeLockTimeoutMs,
      .setWaitLock s storeId chunkId "" mode])
      ("chunk_" ++ toString chunkId) mode 4294967295 = .LOCKRES_OK <;>
    simp [h, M.bind_apply, withSess, emit, MGLock.lock, M.pure, INVARIANT]

theorem getParentMode_idem (env : Env) (mode : LockMode) (t : List Event)
    (hm : mode = .LOCK_IS ∨ mode = .LOCK_S ∨ mode = .LOCK_IX ∨ mode = .LOCK_X) :
    getParentMode env (if mode = .LOCK_IS ∨ mode = .LOCK_S then .LOCK_IS else .LOCK_IX) t =
      .done (if mode = .LOCK_IS ∨ mode = .LOCK_S then .LOCK_IS else .LOCK_IX) t := by
  rcases hm with rfl | rfl | rfl | rfl <;> rfl

/-- The key lock constructor without a session, for a valid mode whose
intention mode is `pm`. -/
theorem KeyLock_ctor_none (env : Env) (storeId chunkId : Nat) (key : String)
    (mode pm : LockMode) (T : Nat) (t : List Event)
    (hpm : getParentMode env mode t = .done pm t)
    (hpp : getParentMode env pm t = .done pm t) :
    KeyLock.ctor env storeId chunkId key mode none T t =
      if env.lock (t ++ [.lock ("store_" ++ toString chunkId) pm env.storeLockTimeoutMs])
          ("chunk_" ++ toString storeId) pm 4294967295 = .LOCKRES_OK then
        .done ⟨env.lock (t ++ [.lock ("store_" ++ toString chunkId) pm env.storeLockTimeoutMs,
              .lock ("chunk_" ++ toString storeId) pm 4294967295]) ("key_" ++ key) mode T,
          ⟨.LOCKRES_WAIT,
            ⟨env.lock t ("store_" ++ toString chunkId) pm env.storeLockTimeoutMs,
              ⟨"store_" ++ toString chunkId, pm⟩, none, chunkId⟩,
            ⟨"chunk_" ++ toString storeId, pm⟩, none, storeId⟩,
          ⟨"key_" ++ key, mode⟩, none, key⟩
          (t ++ [.lock ("store_" ++ toString chunkId) pm env.storeLockTimeoutMs,
            .lock ("chunk_" ++ toString storeId) pm 4294967295,
            .lock ("key_" ++ key) mode T])
      else
        .abort (t ++ [.lock ("store_" ++ toString chunkId) pm env.storeLockTimeoutMs,
          .lock ("chunk_" ++ toString storeId) pm 4294967295, .invariantFailed]) := by
  simp only [KeyLock.ctor, M.bind_apply, hpm, ChunkLock_ctor_none env storeId chunkId pm pm t hpp]
  by_cases h : env.lock (t ++ [.lock ("store_" ++ toString chunkId) pm env.storeLockTimeoutMs])
      ("chunk_" ++ toString storeId) pm 4294967295 = .LOCKRES_OK <;>
    simp [h, M.bind_apply, withSess, emit, MGLock.lock, M.pure]

/-- The key lock constructor with a session, for a valid mode whose intention
mode is `pm`. -/
theorem KeyLock_ctor_some (env : Env) (storeId chunkId : Nat) (key : String)
    (mode pm : LockMode) (s : Session) (T : Nat) (t : List Event)
    (hpm : getParentMode env mode t = .done pm t)
    (hpp : getParentMode env pm t = .done pm t) :
    KeyLock.ctor env storeId chunkId key mode (some s) T t =
      if env.lock (t ++ [.lock ("store_" ++ toString chunkId) pm env.storeLockTimeoutMs])
          ("chunk_" ++ toString storeId) pm 4294967295 = .LOCKRES_OK then
        .done ⟨env.lock (t ++ [.lock ("store_" ++ toString chunkId) pm env.storeLockTimeoutMs,
              .lock ("chunk_" ++ toString storeId) pm 4294967295,
              .setWaitLock s storeId chunkId key mode]) ("key_" ++ key) mode T,
          ⟨.LOCKRES_WAIT,
            ⟨env.lock t ("store_" ++ toString chunkId) pm env.storeLockTimeoutMs,
              ⟨"store_" ++ toString chunkId, pm⟩, none, chunkId⟩,
            ⟨"chunk_" ++ toString storeId, pm⟩, none, storeId⟩,
          ⟨"key_" ++ key, mode⟩, some s, key⟩
          (t ++ [.lock ("store_" ++ toString chunkId) pm env.storeLockTimeoutMs,
            .lock ("chunk_" ++ toString storeId) pm 4294967295,
            .setWaitLock s storeId chunkId key mode,
            .lock ("key_" ++ key) mode T,
            .setWaitLock s 0 0 "" .LOCK_NONE, .addLock s ("key_" ++ key),
            .setKeylock s key mode])
      else
        .abort (t ++ [.lock ("store_" ++ toString chunkId) pm env.storeLockTimeoutMs,
          .lock ("chunk_" ++ toString storeId) pm 4294967295, .invariantFailed]) := by
  simp only [KeyLock.ctor, M.bind_apply, hpm, ChunkLock_ctor_none env storeId chunkId pm pm t hpp]
  by_cases h : env.lock (t ++ [.lock ("store_" ++ toString chunkId) pm env.storeLockTimeoutMs])
      ("chunk_" ++ toString storeId) pm 4294967295 = .LOCKRES_OK <;>
    simp [h, M.bind_apply, withSess, emit, MGLock.lock, M.pure]

/-- The key lock destructor: the calls it makes, in order. -/
theorem KeyLock_dtor_eq (l : KeyLock) (t : List Event) :
    l.dtor t = .done ()
      (t ++ ((match l._sess with
              | some s => [Event.unsetKeylock s l._key]
              | none => []) ++
            [.unlock l._mgl.target, .unlock l._parent._mgl.target] ++
            ([.unlock l._parent._parent._mgl.target] ++
              (match l._parent._parent._sess with
                | some s => [Event.removeLock s l._parent._parent._mgl.target]
                | none => []) ++
              (match l._parent._sess with
                | some s => [Event.removeLock s l._parent._mgl.target]
                | none => [])) ++
            (match l._sess with
              | some s => [Event.removeLock s l._mgl.target]
              | none => []))) := by
  obtain ⟨r, ⟨r1, ⟨r2, m2, s2, i2⟩, m1, s1, i1⟩, m, s, k⟩ := l
  cases s <;> cases s1 <;> cases s2 <;>
    simp [KeyLock.dtor, ChunkLock.dtor, StoreLock.dtor, M.bind_apply, withSess, emit, M.pure]

/-- The key lock destructor returns, and only adds to the trace. -/
theorem KeyLock_dtor_done (l : KeyLock) (t : List Event) :
    ∃ d, l.dtor t = .done () (t ++ d) :=
  ⟨_, KeyLock_dtor_eq l t⟩

/-- The store lock destructor: the calls it makes, in order. -/
theorem StoreLock_dtor_eq (l : StoreLock) (t : List Event) :
    l.dtor t = .done ()
      (t ++ ([.unlock l._mgl.target] ++
        (match l._sess with
          | some s => [Event.removeLock s l._mgl.target]
          | none => []))) := by
  obtain ⟨r, m, s, i⟩ := l
  cases s <;> simp [StoreLock.dtor, M.bind_apply, withSess, emit, M.pure]

/-! ## Properties of the lock handles -/

/-- C1, evaluated on the code: `AquireKeyLock(storeId = 1, chunkId = 2, key = "foo",
LOCK_X, ...)` for a key the session does not hold, with a primitive that grants
every request, returns a non-null handle whose `getKey()` is `"foo"` but whose
`getStoreId()` is 2 (the chunk id asked for) and whose `getChunkId()` is 1 (the
store id asked for): `KeyLock::KeyLock` passes `(storeId, chunkId)` to
`ChunkLock::ChunkLock(chunkId, storeId, ...)`. -/
theorem AquireKeyLock_handle_ids_swapped :
    envGrant.isLockedByMe [] 7 "foo" .LOCK_X = false ∧
    ∃ h t, AquireKeyLock envGrant 1 2 "foo" .LOCK_X 7 50 [] = .done (Except.ok (some h)) t ∧
      h.getStoreId = 2 ∧ h.getChunkId = 1 ∧ h.getKey = "foo" :=
  ⟨rfl, _, _, rfl, rfl, rfl, rfl⟩

/-- C2, evaluated on the code: constructing the key lock for `(storeId = 1,
chunkId = 2, key = "foo")` requests the primitive lock on `store_2`, `chunk_1`
and `key_foo`, in this order: the store resource carries the chunk id and the
chunk resource the store id. -/
theorem KeyLock_ctor_targets_swapped :
    (lockReqs ((KeyLock.ctor envGrant 1 2 "foo" .LOCK_X (some 7) 50 []).since [])).map Prod.fst =
      ["store_2", "chunk_1", "key_foo"] := by
  decide

/-- C3: for a key-lock mode `m` in `{IS, S, IX, X}`, with `pm` the intention mode
of `m` (`IS` for `IS`/`S`, `IX` for `IX`/`X`): `getParentMode m = pm` and
`getParentMode pm = pm`, and the constructor of the key lock requests the
store-level and the chunk-level primitive lock in mode `pm`, then, once the
chunk-level request is granted, the key-level lock in mode `m`; if the
chunk-level request is not granted the run ends there with these two requests. -/
theorem KeyLock_ctor_requests_intention_modes (env : Env) (storeId chunkId : Nat)
    (key : String) (mode : LockMode) (sess : Option Session) (lockTimeoutMs : Nat)
    (t0 : List Event)
    (hm : mode = .LOCK_IS ∨ mode = .LOCK_S ∨ mode = .LOCK_IX ∨ mode = .LOCK_X) :
    let pm : LockMode := if mode = .LOCK_IS ∨ mode = .LOCK_S then .LOCK_IS else .LOCK_IX
    let storeReq := Event.lock ("store_" ++ toString chunkId) pm env.storeLockTimeoutMs
    let chunkRes := env.lock (t0 ++ [storeReq]) ("chunk_" ++ toString storeId) pm 4294967295
    getParentMode env mode t0 = .done pm t0 ∧ getParentMode env pm t0 = .done pm t0 ∧
    lockReqs ((KeyLock.ctor env storeId chunkId key mode sess lockTimeoutMs t0).since t0) =
      if chunkRes = .LOCKRES_OK then
        [("store_" ++ toString chunkId, pm), ("chunk_" ++ toString storeId, pm),
          ("key_" ++ key, mode)]
      else [("store_" ++ toString chunkId, pm), ("chunk_" ++ toString storeId, pm)] := by
  intro pm storeReq chunkRes
  have hpm := getParentMode_valid env mode t0 hm
  have hpp := getParentMode_idem env mode t0 hm
  refine ⟨hpm, hpp, ?_⟩
  cases sess with
  | none =>
    rw [KeyLock_ctor_none env storeId chunkId key mode pm lockTimeoutMs t0 hpm hpp]
    by_cases h : chunkRes = .LOCKRES_OK
    · rw [if_pos h, if_pos h, since_done]; rfl
    · rw [if_neg h, if_neg h, since_abort]; rfl
  | some s =>
    rw [KeyLock_ctor_some env storeId chunkId key mode pm s lockTimeoutMs t0 hpm hpp]
    by_cases h : chunkRes = .LOCKRES_OK
    · rw [if_pos h, if_pos h, since_done]; rfl
    · rw [if_neg h, if_neg h, since_abort]; rfl

/-- C3 at `(storeId = 1, chunkId = 2, key = "foo", LOCK_X)` with a granting
primitive: store and chunk are requested in `LOCK_IX`, the key in `LOCK_X`. -/
theorem KeyLock_ctor_requests_intention_modes_witness :
    (LockMode.LOCK_X = .LOCK_IS ∨ LockMode.LOCK_X = .LOCK_S ∨ LockMode.LOCK_X = .LOCK_IX ∨
      LockMode.LOCK_X = .LOCK_X) ∧
    lockReqs ((KeyLock.ctor envGrant 1 2 "foo" .LOCK_X (some 7) 50 []).since []) =
      [("store_2", .LOCK_IX), ("chunk_1", .LOCK_IX), ("key_foo", .LOCK_X)] :=
  ⟨by decide,
    (KeyLock_ctor_requests_intention_modes envGrant 1 2 "foo" .LOCK_X (some 7) 50 []
      (by decide)).2.2⟩

/-- C4: `getParentMode` returns `LOCK_IS` for `LOCK_IS` and `LOCK_S`, and `LOCK_IX`
for `LOCK_IX` and `LOCK_X`, without touching the trace.  For every other mode
its invariant fails: the failed check is recorded, a debug build aborts, and no
build returns `LOCK_IS` or `LOCK_IX`.  A chunk lock requested with `LOCK_IX`
requests its parent store lock first, with mode `LOCK_IX`. -/
theorem getParentMode_table (env : Env) (t0 : List Event) :
    getParentMode env .LOCK_IS t0 = .done .LOCK_IS t0 ∧
    getParentMode env .LOCK_S t0 = .done .LOCK_IS t0 ∧
    getParentMode env .LOCK_IX t0 = .done .LOCK_IX t0 ∧
    getParentMode env .LOCK_X t0 = .done .LOCK_IX t0 ∧
    (∀ mode : LockMode,
      mode ≠ .LOCK_IS → mode ≠ .LOCK_S → mode ≠ .LOCK_IX → mode ≠ .LOCK_X →
        Event.invariantFailed ∈ (getParentMode env mode t0).since t0 ∧
        (env.debug = true → getParentMode env mode t0 = .abort (t0 ++ [.invariantFailed])) ∧
        ∀ t, getParentMode env mode t0 ≠ .done .LOCK_IS t ∧
          getParentMode env mode t0 ≠ .done .LOCK_IX t) ∧
    ∀ (chunkId storeId : Nat) (sess : Option Session),
      (lockReqs ((ChunkLock.ctor env chunkId storeId .LOCK_IX sess t0).since t0)).head? =
        some ("store_" ++ toString storeId, .LOCK_IX) := by
  refine ⟨rfl, rfl, rfl, rfl, ?_, ?_⟩
  · intro mode h1 h2 h3 h4
    cases mode <;> first | contradiction | skip
    have hval : getParentMode env .LOCK_NONE t0 =
        if env.debug then .abort (t0 ++ [.invariantFailed])
        else .done .LOCK_NONE (t0 ++ [.invariantFailed]) := by
      simp only [getParentMode, M.bind_apply, INVARIANT_D, M.pure]
      cases env.debug <;> simp
    rw [hval]
    cases env.debug <;> simp [since_done, since_abort]
  · intro chunkId storeId sess
    cases sess with
    | none =>
      rw [ChunkLock_ctor_none env chunkId storeId .LOCK_IX .LOCK_IX t0 rfl]
      split <;> simp [since_done, since_abort, lockReqs]
    | some s =>
      rw [ChunkLock_ctor_some env chunkId storeId .LOCK_IX .LOCK_IX s t0 rfl]
      split <;> simp [since_done, since_abort, lockReqs]

/-- C5: for a key lock with a valid mode, the constructor requests the
store-level resource, then the chunk-level resource, then (once the chunk-level
request is granted, when the construction completes) the key-level resource;
destroying the handle unlocks in the reverse order: key, chunk, store.  If the
chunk-level request is not granted the run aborts after the store-level and
chunk-level requests, in this order. -/
theorem KeyLock_requests_top_down_unlocks_bottom_up (env : Env) (storeId chunkId : Nat)
    (key : String) (mode : LockMode) (sess : Option Session) (lockTimeoutMs : Nat)
    (t0 : List Event)
    (hm : mode = .LOCK_IS ∨ mode = .LOCK_S ∨ mode = .LOCK_IX ∨ mode = .LOCK_X) :
    let pm : LockMode := if mode = .LOCK_IS ∨ mode = .LOCK_S then .LOCK_IS else .LOCK_IX
    let storeT := "store_" ++ toString chunkId
    let chunkT := "chunk_" ++ toString storeId
    let keyT := "key_" ++ key
    let chunkRes :=
      env.lock (t0 ++ [Event.lock storeT pm env.storeLockTimeoutMs]) chunkT pm 4294967295
    let r := KeyLock.ctor env storeId chunkId key mode sess lockTimeoutMs t0
    (chunkRes = .LOCKRES_OK →
      ∃ h t1, r = .done h t1 ∧
        (lockReqs (r.since t0)).map Prod.fst = [storeT, chunkT, keyT] ∧
        ∀ t, unlocks ((h.dtor t).since t) = [keyT, chunkT, storeT]) ∧
    (chunkRes ≠ .LOCKRES_OK →
      (∃ t1, r = .abort t1) ∧ (lockReqs (r.since t0)).map Prod.fst = [storeT, chunkT]) := by
  intro pm storeT chunkT keyT chunkRes r
  have hpm := getParentMode_valid env mode t0 hm
  have hpp := getParentMode_idem env mode t0 hm
  have hr : r = KeyLock.ctor env storeId chunkId key mode sess lockTimeoutMs t0 := rfl
  cases sess with
  | none =>
    rw [KeyLock_ctor_none env storeId chunkId key mode pm lockTimeoutMs t0 hpm hpp] at hr
    constructor
    · intro h
      rw [if_pos h] at hr
      refine ⟨_, _, hr, ?_, ?_⟩
      · rw [hr, since_done]; rfl
      · intro t
        rw [KeyLock_dtor_eq, since_done]; rfl
    · intro h
      rw [if_neg h] at hr
      refine ⟨⟨_, hr⟩, ?_⟩
      rw [hr, since_abort]; rfl
  | some s =>
    rw [KeyLock_ctor_some env storeId chunkId key mode pm s lockTimeoutMs t0 hpm hpp] at hr
    constructor
    · intro h
      rw [if_pos h] at hr
      refine ⟨_, _, hr, ?_, ?_⟩
      · rw [hr, since_done]; rfl
      · intro t
        rw [KeyLock_dtor_eq, since_done]; rfl
    · intro h
      rw [if_neg h] at hr
      refine ⟨⟨_, hr⟩, ?_⟩
      rw [hr, since_abort]; rfl

/-- C5 at `(storeId = 1, chunkId = 2, key = "foo", LOCK_X)` with a granting
primitive: the construction completes and the destruction of its handle unlocks
`key_foo`, then `chunk_1`, then `store_2`. -/
theorem KeyLock_requests_top_down_unlocks_bottom_up_witness :
    (LockMode.LOCK_X = .LOCK_IS ∨ LockMode.LOCK_X = .LOCK_S ∨ LockMode.LOCK_X = .LOCK_IX ∨
      LockMode.LOCK_X = .LOCK_X) ∧
    ∃ h t1, KeyLock.ctor envGrant 1 2 "foo" .LOCK_X (some 7) 50 [] = .done h t1 ∧
      (lockReqs ((KeyLock.ctor envGrant 1 2 "foo" .LOCK_X (some 7) 50 []).since [])).map
        Prod.fst = ["store_2", "chunk_1", "key_foo"] ∧
      ∀ t, unlocks ((h.dtor t).since t) = ["key_foo", "chunk_1", "store_2"] :=
  ⟨by decide,
    (KeyLock_requests_top_down_unlocks_bottom_up envGrant 1 2 "foo" .LOCK_X (some 7) 50 []
      (by decide)).1 rfl⟩

/-- C6: `AquireStoreLock` always constructs its handle, and `AquireKeyLock`, when
the re-entrancy check is false, constructs one unless the construction itself
aborts (then the factory aborts with it).  Both map the outcome of the
constructed handle as `FactoryMaps` says: success with that handle exactly for
`LOCKRES_OK`, the error `ERR_LOCK_TIMEOUT` exactly for `LOCKRES_TIMEOUT`, and a
failed invariant for any other outcome. -/
theorem factories_map_outcome (env : Env) (storeId chunkId : Nat) (key : String)
    (mode : LockMode) (sess : Option Session) (s : Session) (lockTimeoutMs : Nat)
    (t0 : List Event) (hfree : env.isLockedByMe t0 s key mode = false) :
    (∃ h t1, StoreLock.ctor env storeId mode sess lockTimeoutMs t0 = .done h t1 ∧
      FactoryMaps h.getLockResult h t1
        (AquireStoreLock env storeId mode sess lockTimeoutMs t0)) ∧
    (∀ t1, KeyLock.ctor env storeId chunkId key mode (some s) lockTimeoutMs t0 = .abort t1 →
      AquireKeyLock env storeId chunkId key mode s lockTimeoutMs t0 = .abort t1) ∧
    (∀ h t1, KeyLock.ctor env storeId chunkId key mode (some s) lockTimeoutMs t0 = .done h t1 →
      FactoryMaps h.getLockResult h t1
        (AquireKeyLock env storeId chunkId key mode s lockTimeoutMs t0)) := by
  refine ⟨?_, ?_, ?_⟩
  · have hc : ∃ h t1, StoreLock.ctor env storeId mode sess lockTimeoutMs t0 = .done h t1 := by
      cases sess with
      | none => exact ⟨_, _, StoreLock_ctor_none env storeId mode lockTimeoutMs t0⟩
      | some s1 => exact ⟨_, _, StoreLock_ctor_some env storeId mode s1 lockTimeoutMs t0⟩
    obtain ⟨h, t1, hc⟩ := hc
    refine ⟨h, t1, hc, ?_⟩
    cases hres : h.getLockResult
    · have hr : AquireStoreLock env storeId mode sess lockTimeoutMs t0 =
          .done (Except.ok (some h)) t1 := by
        simp [AquireStoreLock, M.bind_apply, hc, hres, M.pure]
      rw [hr]
      simp [FactoryMaps]
    · have hr : AquireStoreLock env storeId mode sess lockTimeoutMs t0 =
          if env.debug then .abort (t1 ++ [.invariantFailed])
          else .done (Except.error (ErrorCodes.ERR_UNKNOWN, "unknown error"))
            (t1 ++ ([.invariantFailed] ++ ([.unlock h._mgl.target] ++
              (match h._sess with
                | some s => [Event.removeLock s h._mgl.target]
                | none => [])))) := by
        cases hd : env.debug <;>
          simp [AquireStoreLock, M.bind_apply, hc, hres, INVARIANT_D, hd, M.pure,
            StoreLock_dtor_eq]
      rw [hr]
      cases env.debug <;> simp [FactoryMaps, since_done, since_abort]
    · have hr : AquireStoreLock env storeId mode sess lockTimeoutMs t0 =
          .done (Except.error (ErrorCodes.ERR_LOCK_TIMEOUT, "Lock wait timeout"))
            (t1 ++ ([.unlock h._mgl.target] ++
              (match h._sess with
                | some s => [Event.removeLock s h._mgl.target]
                | none => []))) := by
        simp [AquireStoreLock, M.bind_apply, hc, hres, M.pure, StoreLock_dtor_eq]
      rw [hr]
      simp [FactoryMaps]
  · intro t1 hc
    simp [AquireKeyLock, hfree, M.bind_apply, hc]
  · intro h t1 hc
    cases hres : h.getLockResult
    · have hr : AquireKeyLock env storeId chunkId key mode s lockTimeoutMs t0 =
          .done (Except.ok (some h)) t1 := by
        simp [AquireKeyLock, hfree, M.bind_apply, hc, hres, M.pure]
      rw [hr]
      simp [FactoryMaps]
    · have hr : ∃ d, AquireKeyLock env storeId chunkId key mode s lockTimeoutMs t0 =
          if env.debug then .abort (t1 ++ [.invariantFailed])
          else .done (Except.error (ErrorCodes.ERR_UNKNOWN, "unknown error"))
            (t1 ++ ([.invariantFailed] ++ d)) := by
        obtain ⟨d, hd⟩ := KeyLock_dtor_done h (t1 ++ [.invariantFailed])
        refine ⟨d, ?_⟩
        cases hdb : env.debug <;>
          simp [AquireKeyLock, hfree, M.bind_apply, hc, hres, INVARIANT_D, hdb, M.pure, hd]
      obtain ⟨d, hr⟩ := hr
      rw [hr]
      cases env.debug <;> simp [FactoryMaps, since_done, since_abort]
    · have hr : ∃ d, AquireKeyLock env storeId chunkId key mode s lockTimeoutMs t0 =
          .done (Except.error (ErrorCodes.ERR_LOCK_TIMEOUT, "Lock wait timeout")) (t1 ++ d) := by
        obtain ⟨d, hd⟩ := KeyLock_dtor_done h t1
        refine ⟨d, ?_⟩
        simp [AquireKeyLock, hfree, M.bind_apply, hc, hres, M.pure, hd]
      obtain ⟨d, hr⟩ := hr
      rw [hr]
      simp [FactoryMaps]

/-- C6 at a key lock whose key-level request times out (store and chunk are
granted): the construction completes and `AquireKeyLock` returns the error
`ERR_LOCK_TIMEOUT`. -/
theorem factories_map_outcome_witness :
    envKeyTimeout.isLockedByMe [] 7 "foo" .LOCK_X = false ∧
    ∃ msg t2, AquireKeyLock envKeyTimeout 1 2 "foo" .LOCK_X 7 50 [] =
      .done (Except.error (ErrorCodes.ERR_LOCK_TIMEOUT, msg)) t2 :=
  ⟨rfl,
    ((factories_map_outcome envKeyTimeout 1 2 "foo" .LOCK_X (some 7) 7 50 [] rfl).2.2
      _ _ rfl).2.2.1.mpr rfl⟩

/-- C7: when the session's re-entrancy check `isLockedByMe(key, mode)` is true,
`AquireKeyLock` returns a success carrying a null handle and leaves the trace
as it was: no primitive lock request (nor any other call) is made. -/
theorem AquireKeyLock_reentrant (env : Env) (storeId chunkId : Nat) (key : String)
    (mode : LockMode) (s : Session) (lockTimeoutMs : Nat) (t0 : List Event)
    (hheld : env.isLockedByMe t0 s key mode = true) :
    AquireKeyLock env storeId chunkId key mode s lockTimeoutMs t0 = .done (Except.ok none) t0 ∧
    lockReqs ((AquireKeyLock env storeId chunkId key mode s lockTimeoutMs t0).since t0) = [] := by
  have hr : AquireKeyLock env storeId chunkId key mode s lockTimeoutMs t0 =
      .done (Except.ok none) t0 := by
    simp [AquireKeyLock, hheld]
  refine ⟨hr, ?_⟩
  rw [hr, since_done_self]
  rfl

/-- C7 at a second `AquireKeyLock` on `key_foo`, after the calls of a first one,
by a session whose re-entrancy check answers yes. -/
theorem AquireKeyLock_reentrant_witness :
    envHeld.isLockedByMe [.lock "key_foo" .LOCK_X 50, .setKeylock 7 "foo" .LOCK_X] 7 "foo"
      .LOCK_X = true ∧
    AquireKeyLock envHeld 1 2 "foo" .LOCK_X 7 50
        [.lock "key_foo" .LOCK_X 50, .setKeylock 7 "foo" .LOCK_X] =
      .done (Except.ok none) [.lock "key_foo" .LOCK_X 50, .setKeylock 7 "foo" .LOCK_X] :=
  ⟨rfl,
    (AquireKeyLock_reentrant envHeld 1 2 "foo" .LOCK_X 7 50
      [.lock "key_foo" .LOCK_X 50, .setKeylock 7 "foo" .LOCK_X] rfl).1⟩

/-- C10, evaluated on the code: a chunk lock `(chunkId = 2, storeId = 1, LOCK_IX)`
whose store-level and chunk-level requests are both granted completes its
construction, and its `getLockResult()` is `LOCKRES_WAIT`: the constructor keeps
the outcome in a local variable and never assigns `_lockResult`. -/
theorem ChunkLock_getLockResult_WAIT :
    envGrant.lock [] "store_1" .LOCK_IX 3600000 = .LOCKRES_OK ∧
    envGrant.lock [.lock "store_1" .LOCK_IX 3600000, .setWaitLock 7 1 2 "" .LOCK_IX] "chunk_2"
      .LOCK_IX 4294967295 = .LOCKRES_OK ∧
    ∃ h t, ChunkLock.ctor envGrant 2 1 .LOCK_IX (some 7) [] = .done h t ∧
      h.getLockResult = .LOCKRES_WAIT :=
  ⟨rfl, rfl, _, _, rfl, rfl⟩

/-- C8 fails as stated: a chunk lock `(chunkId = 2, storeId = 1, LOCK_IX)` with a
session attached, whose chunk-level request times out, aborts on its invariant;
the last `setWaitLock` call of the attempt is `setWaitLock(1, 2, "", LOCK_IX)`,
not the reset. -/
theorem ChunkLock_timeout_keeps_wait_marker :
    envChunkTimeout.lock [.lock "store_1" .LOCK_IX 3600000, .setWaitLock 7 1 2 "" .LOCK_IX]
      "chunk_2" .LOCK_IX 4294967295 = .LOCKRES_TIMEOUT ∧
    (waitLocks ((ChunkLock.ctor envChunkTimeout 2 1 .LOCK_IX (some 7) []).since [])).getLast? =
      some (7, 1, 2, "", .LOCK_IX) ∧
    (waitLocks ((ChunkLock.ctor envChunkTimeout 2 1 .LOCK_IX (some 7) []).since [])).getLast? ≠
      some (7, 0, 0, "", .LOCK_NONE) := by
  decide

/-- C8 as amended: with a session attached and a valid mode, whenever a
constructor runs to completion the last `setWaitLock` call of the attempt is
`setWaitLock(0, 0, "", LOCK_NONE)`.  A store lock always completes, whatever the
primitive returns.  A chunk lock completes exactly when its chunk-level request
returns `LOCKRES_OK`; otherwise it aborts and the last call is
`setWaitLock(storeId, chunkId, "", mode)`.  A key lock completes exactly when
its chunk-level request returns `LOCKRES_OK`, whatever the key-level request
returns; otherwise it aborts before any `setWaitLock` call. -/
theorem wait_marker_reset_when_ctor_completes (env : Env) (storeId chunkId : Nat)
    (key : String) (mode : LockMode) (s : Session) (lockTimeoutMs : Nat) (t0 : List Event)
    (hm : mode = .LOCK_IS ∨ mode = .LOCK_S ∨ mode = .LOCK_IX ∨ mode = .LOCK_X) :
    let pm : LockMode := if mode = .LOCK_IS ∨ mode = .LOCK_S then .LOCK_IS else .LOCK_IX
    let reset : Session × Nat × Nat × String × LockMode := (s, 0, 0, "", .LOCK_NONE)
    let rStore := StoreLock.ctor env storeId mode (some s) lockTimeoutMs t0
    let rChunk := ChunkLock.ctor env chunkId storeId mode (some s) t0
    let chunkRes := env.lock
      (t0 ++ [.lock ("store_" ++ toString storeId) pm env.storeLockTimeoutMs,
        .setWaitLock s storeId chunkId "" mode])
      ("chunk_" ++ toString chunkId) mode 4294967295
    let rKey := KeyLock.ctor env storeId chunkId key mode (some s) lockTimeoutMs t0
    let keyChunkRes := env.lock
      (t0 ++ [.lock ("store_" ++ toString chunkId) pm env.storeLockTimeoutMs])
      ("chunk_" ++ toString storeId) pm 4294967295
    ((∃ h t1, rStore = .done h t1) ∧ (waitLocks (rStore.since t0)).getLast? = some reset) ∧
    (chunkRes = .LOCKRES_OK →
      (∃ h t1, rChunk = .done h t1) ∧ (waitLocks (rChunk.since t0)).getLast? = some reset) ∧
    (chunkRes ≠ .LOCKRES_OK →
      (∃ t1, rChunk = .abort t1) ∧
        (waitLocks (rChunk.since t0)).getLast? = some (s, storeId, chunkId, "", mode)) ∧
    (keyChunkRes = .LOCKRES_OK →
      (∃ h t1, rKey = .done h t1) ∧ (waitLocks (rKey.since t0)).getLast? = some reset) ∧
    (keyChunkRes ≠ .LOCKRES_OK →
      (∃ t1, rKey = .abort t1) ∧ waitLocks (rKey.since t0) = []) := by
  intro pm reset rStore rChunk chunkRes rKey keyChunkRes
  have hpm := getParentMode_valid env mode t0 hm
  have hpp := getParentMode_idem env mode t0 hm
  have hS : rStore = _ := StoreLock_ctor_some env storeId mode s lockTimeoutMs t0
  have hC : rChunk = _ := ChunkLock_ctor_some env chunkId storeId mode pm s t0 hpm
  have hK : rKey = _ := KeyLock_ctor_some env storeId chunkId key mode pm s lockTimeoutMs t0 hpm hpp
  refine ⟨⟨⟨_, _, hS⟩, ?_⟩, ?_, ?_, ?_, ?_⟩
  · rw [hS, since_done]; rfl
  · intro h
    rw [if_pos h] at hC
    refine ⟨⟨_, _, hC⟩, ?_⟩
    rw [hC, since_done]; rfl
  · intro h
    rw [if_neg h] at hC
    refine ⟨⟨_, hC⟩, ?_⟩
    rw [hC, since_abort]; rfl
  · intro h
    rw [if_pos h] at hK
    refine ⟨⟨_, _, hK⟩, ?_⟩
    rw [hK, since_done]; rfl
  · intro h
    rw [if_neg h] at hK
    refine ⟨⟨_, hK⟩, ?_⟩
    rw [hK, since_abort]; rfl

/-- C8 as amended, at a key lock `(1, 2, "foo", LOCK_X)` whose key-level request
times out after its store and chunk were granted: the construction completes
and the last `setWaitLock` call is the reset. -/
theorem wait_marker_reset_when_ctor_completes_witness :
    (LockMode.LOCK_X = .LOCK_IS ∨ LockMode.LOCK_X = .LOCK_S ∨ LockMode.LOCK_X = .LOCK_IX ∨
      LockMode.LOCK_X = .LOCK_X) ∧
    (∃ h t1, KeyLock.ctor envKeyTimeout 1 2 "foo" .LOCK_X (some 7) 50 [] = .done h t1) ∧
    (waitLocks ((KeyLock.ctor envKeyTimeout 1 2 "foo" .LOCK_X (some 7) 50 []).since [])).getLast? =
      some (7, 0, 0, "", .LOCK_NONE) :=
  ⟨by decide,
    (wait_marker_reset_when_ctor_completes envKeyTimeout 1 2 "foo" .LOCK_X 7 50 []
      (by decide)).2.2.2.1 rfl⟩

/-- C9 fails as stated: a store lock with a session attached whose request times
out still calls `addLock`, and a key lock whose key-level request times out
still calls `addLock` and `setKeylock`. -/
theorem timeout_still_registers :
    (∃ h t, StoreLock.ctor envTimeout 1 .LOCK_X (some 7) 50 [] = .done h t ∧
      h.getLockResult = .LOCKRES_TIMEOUT ∧ addLocks t = [(7, "store_1")]) ∧
    (∃ h t, KeyLock.ctor envKeyTimeout 1 2 "foo" .LOCK_X (some 7) 50 [] = .done h t ∧
      h.getLockResult = .LOCKRES_TIMEOUT ∧ addLocks t = [(7, "key_foo")] ∧
      setKeylocks t = [(7, "foo", .LOCK_X)]) :=
  ⟨⟨_, _, rfl, rfl, rfl⟩, ⟨_, _, rfl, rfl, rfl, rfl⟩⟩

/-- C9 as amended: with a session attached and a valid mode, a store lock or key
lock whose constructor completes has called `addLock` once, and a key lock
`setKeylock(key, mode)` once, whatever the outcome of its own primitive request
(the handle's outcome is whatever the primitive returned, `LOCKRES_TIMEOUT`
included).  A store lock always completes; a key lock completes exactly when
its chunk-level request returns `LOCKRES_OK`, and otherwise aborts without
either call. -/
theorem registers_whatever_the_outcome (env : Env) (storeId chunkId : Nat)
    (key : String) (mode : LockMode) (s : Session) (lockTimeoutMs : Nat) (t0 : List Event)
    (hm : mode = .LOCK_IS ∨ mode = .LOCK_S ∨ mode = .LOCK_IX ∨ mode = .LOCK_X) :
    let pm : LockMode := if mode = .LOCK_IS ∨ mode = .LOCK_S then .LOCK_IS else .LOCK_IX
    let rStore := StoreLock.ctor env storeId mode (some s) lockTimeoutMs t0
    let storeRes := env.lock (t0 ++ [.setWaitLock s storeId 0 "" mode])
      ("store_" ++ toString storeId) mode lockTimeoutMs
    let rKey := KeyLock.ctor env storeId chunkId key mode (some s) lockTimeoutMs t0
    let keyChunkRes := env.lock
      (t0 ++ [.lock ("store_" ++ toString chunkId) pm env.storeLockTimeoutMs])
      ("chunk_" ++ toString storeId) pm 4294967295
    let keyRes := env.lock
      (t0 ++ [.lock ("store_" ++ toString chunkId) pm env.storeLockTimeoutMs,
        .lock ("chunk_" ++ toString storeId) pm 4294967295,
        .setWaitLock s storeId chunkId key mode])
      ("key_" ++ key) mode lockTimeoutMs
    (∃ h t1, rStore = .done h t1 ∧ h.getLockResult = storeRes ∧
      addLocks (rStore.since t0) = [(s, "store_" ++ toString storeId)]) ∧
    (keyChunkRes = .LOCKRES_OK →
      ∃ h t1, rKey = .done h t1 ∧ h.getLockResult = keyRes ∧
        addLocks (rKey.since t0) = [(s, "key_" ++ key)] ∧
        setKeylocks (rKey.since t0) = [(s, key, mode)]) ∧
    (keyChunkRes ≠ .LOCKRES_OK →
      (∃ t1, rKey = .abort t1) ∧ addLocks (rKey.since t0) = [] ∧
        setKeylocks (rKey.since t0) = []) := by
  intro pm rStore storeRes rKey keyChunkRes keyRes
  have hpm := getParentMode_valid env mode t0 hm
  have hpp := getParentMode_idem env mode t0 hm
  have hS : rStore = _ := StoreLock_ctor_some env storeId mode s lockTimeoutMs t0
  have hK : rKey = _ := KeyLock_ctor_some env storeId chunkId key mode pm s lockTimeoutMs t0 hpm hpp
  refine ⟨⟨_, _, hS, rfl, ?_⟩, ?_, ?_⟩
  · rw [hS, since_done]; rfl
  · intro h
    rw [if_pos h] at hK
    refine ⟨_, _, hK, rfl, ?_, ?_⟩
    · rw [hK, since_done]; rfl
    · rw [hK, since_done]; rfl
  · intro h
    rw [if_neg h] at hK
    refine ⟨⟨_, hK⟩, ?_, ?_⟩
    · rw [hK, since_abort]; rfl
    · rw [hK, since_abort]; rfl

/-- C9 as amended, at a store lock `(storeId = 1, LOCK_X)` whose request times
out: the handle's outcome is `LOCKRES_TIMEOUT` and `addLock` was called. -/
theorem registers_whatever_the_outcome_witness :
    (LockMode.LOCK_X = .LOCK_IS ∨ LockMode.LOCK_X = .LOCK_S ∨ LockMode.LOCK_X = .LOCK_IX ∨
      LockMode.LOCK_X = .LOCK_X) ∧
    ∃ h t1, StoreLock.ctor envTimeout 1 .LOCK_X (some 7) 50 [] = .done h t1 ∧
      h.getLockResult = .LOCKRES_TIMEOUT ∧
      addLocks ((StoreLock.ctor envTimeout 1 .LOCK_X (some 7) 50 []).since []) =
        [(7, "store_1")] :=
  ⟨by decide,
    (registers_whatever_the_outcome envTimeout 1 2 "foo" .LOCK_X 7 50 [] (by decide)).1⟩

end Tendis
